import Mathlib

/-!
Shallow embedding of the NexLock locker-module firmware
(ServerManager, HardwareManager and their variants).

The repository contains several build variants of the same firmware:

* a "Direct" actuation variant, in which the ESP32 drives the lock servos
  itself (`HardwareManager::lockLocker` / `unlockLocker` / `toggleLocker`
  set a servo position field), paired with a raw-WebSocket `ServerManager`
  whose `handleLockUnlockCommand` calls the hardware and then
  `sendStatusUpdate`;
* a "Relayed" actuation variant, in which lock commands are written as
  byte frames to a secondary Arduino controller
  (`HardwareManager::sendCommandToArduino`, `waitForArduinoResponse`,
  `processArduinoMessage`), with string `currentStatus` per locker;
* several variants of `HardwareManager::saveLockerConfiguration`: a legacy
  one that writes the preference keys unconditionally, and validating ones
  that reject an empty module id or an invalid locker count before any
  write.

Machine integers: `millis()` timestamps are `unsigned long` (32 bits on
the ESP32); the firmware computes time differences as wrapping unsigned
subtraction, embedded here as `elapsedU32`.  All other arithmetic in the
modelled code stays far from overflow, so it is embedded over `Nat`.

Side effects: LCD updates and serial debug prints carry no protocol
state and are dropped.  WebSocket sends are modelled as values of
`OutMsg` collected in output lists; preference writes are modelled by a
`PrefsState` record that also logs each written key name, so that "no
key is written" claims can be settled exactly.
-/

/-! ## Constants from config.h -/

def MAX_LOCKERS : Nat := 3

def LOCK_POSITION : Nat := 0

def OPEN_POSITION : Nat := 90

def PING_INTERVAL : Nat := 60000

def AVAILABLE_BROADCAST_INTERVAL : Nat := 15000

def SERIAL_TIMEOUT : Nat := 1000

def DEVICE_NAME : String := "NexLock"

def FIRMWARE_VERSION : String := "1.2.0"

def CMD_LOCK : Char := 'L'

def CMD_UNLOCK : Char := 'U'

def CMD_STATUS : Char := 'S'

def RESP_LOCKED : Char := '1'

def RESP_UNLOCKED : Char := '2'

def RESP_ACK : Char := 'A'

def RESP_ERROR : Char := 'E'

/-! ## Unsigned 32-bit elapsed-time arithmetic

`millis()` returns `unsigned long` (32-bit); `now - last` in the firmware
is wrapping subtraction modulo 2^32. -/

/-- Wrapping unsigned 32-bit subtraction `now - last`, as computed by the
firmware on `unsigned long` millisecond timestamps. -/
def elapsedU32 (now last : Nat) : Nat :=
  (now + (4294967296 - last % 4294967296)) % 4294967296

theorem elapsedU32_of_le (last now : Nat) (h1 : last ≤ now)
    (h2 : now - last < 4294967296) : elapsedU32 now last = now - last := by
  unfold elapsedU32
  omega

/-! ## Output envelopes

The raw-WebSocket `ServerManager` variant serialises flat JSON objects;
each send site is embedded as one constructor carrying exactly the fields
the source writes into the JSON document. -/

inductive OutMsg where
  /-- ServerManager::sendStatusUpdate -/
  | statusUpdate (moduleId lockerId status : String) (timestamp : Nat)
  /-- ServerManager::sendAvailableModuleBroadcast -/
  | moduleAvailable (macAddress deviceInfo version : String)
      (capabilities : Nat) (timestamp : Nat)
  /-- ServerManager::sendPing -/
  | ping (moduleId : String)
deriving Repr, DecidableEq

/-- Test for a `module_available` broadcast envelope. -/
def isAvailableMsg : OutMsg → Bool
  | OutMsg.moduleAvailable _ _ _ _ _ => true
  | _ => false

/-- The `status_update` envelopes of a send list that concern a given
locker id. -/
def statusUpdatesFor (msgs : List OutMsg) (lockerId : String) : List OutMsg :=
  msgs.filter fun m =>
    match m with
    | OutMsg.statusUpdate _ lid _ _ => lid = lockerId
    | _ => false

/-- ServerManager::sendStatusUpdate: drops the message unless the module is
configured and connected, otherwise sends one `status_update` envelope. -/
def sendStatusUpdate (isConfigured isConnected : Bool)
    (moduleId lockerId status : String) (now : Nat) : List OutMsg :=
  if !isConfigured || !isConnected then []
  else [OutMsg.statusUpdate moduleId lockerId status now]

/-- ServerManager::sendPing. -/
def sendPing (isConfigured isConnected : Bool) (moduleId : String) :
    List OutMsg :=
  if !isConfigured || !isConnected then []
  else [OutMsg.ping moduleId]

/-! ## Direct actuation variant (servo-driving HardwareManager) -/

/-- LockerConfig of the Direct (servo) variant: `lockerId`,
`currentPosition` (servo angle), `lastStatusUpdate`.  Servo handles and
pin numbers carry no protocol state and are dropped. -/
structure LockerConfigD where
  lockerId : String
  currentPosition : Nat
  lastStatusUpdate : Nat
deriving Repr, DecidableEq

/-- The `for`-loop search pattern used by lock/unlock/toggle: first
registry entry with the given locker id. -/
def findLockerD (regs : List LockerConfigD) (lockerId : String) :
    Option LockerConfigD :=
  match regs with
  | [] => none
  | l :: rest =>
    if l.lockerId = lockerId then some l else findLockerD rest lockerId

/-- HardwareManager::lockLocker (Direct variant): writes `LOCK_POSITION`
to the first matching locker's servo and position field, then breaks. -/
def lockLocker (regs : List LockerConfigD) (lockerId : String) :
    List LockerConfigD :=
  match regs with
  | [] => []
  | l :: rest =>
    if l.lockerId = lockerId then
      { l with currentPosition := LOCK_POSITION } :: rest
    else l :: lockLocker rest lockerId

/-- HardwareManager::unlockLocker (Direct variant): writes `OPEN_POSITION`
to the first matching locker, then breaks. -/
def unlockLocker (regs : List LockerConfigD) (lockerId : String) :
    List LockerConfigD :=
  match regs with
  | [] => []
  | l :: rest =>
    if l.lockerId = lockerId then
      { l with currentPosition := OPEN_POSITION } :: rest
    else l :: unlockLocker rest lockerId

/-- HardwareManager::toggleLocker: flips the first matching locker's
position, `LOCK_POSITION` to `OPEN_POSITION` and anything else to
`LOCK_POSITION`, then breaks. -/
def toggleLocker (regs : List LockerConfigD) (lockerId : String) :
    List LockerConfigD :=
  match regs with
  | [] => []
  | l :: rest =>
    if l.lockerId = lockerId then
      (if l.currentPosition = LOCK_POSITION then
        { l with currentPosition := OPEN_POSITION }
      else
        { l with currentPosition := LOCK_POSITION }) :: rest
    else l :: toggleLocker rest lockerId

/-- ServerManager::handleLockUnlockCommand (raw-WebSocket variant, paired
with the Direct hardware): dispatches on the message type, actuates, and
then unconditionally calls `sendStatusUpdate` with the commanded status.
Returns the new registry and the sent envelopes. -/
def handleLockUnlockCommandDirect (isConfigured isConnected : Bool)
    (moduleId : String) (regs : List LockerConfigD)
    (msgType lockerId : String) (now : Nat) :
    List LockerConfigD × List OutMsg :=
  if msgType = "unlock" then
    (unlockLocker regs lockerId,
      sendStatusUpdate isConfigured isConnected moduleId lockerId "unlocked" now)
  else if msgType = "lock" then
    (lockLocker regs lockerId,
      sendStatusUpdate isConfigured isConnected moduleId lockerId "locked" now)
  else (regs, [])

/-! ## Relayed actuation variant (Arduino-backed HardwareManager) -/

/-- LockerConfig of the Relayed variant: `lockerId`, 1-based
`lockerIndex` for the Arduino, string `currentStatus`, timestamp. -/
structure LockerConfigR where
  lockerId : String
  lockerIndex : Nat
  currentStatus : String
  lastStatusUpdate : Nat
deriving Repr, DecidableEq

/-- A 3-byte response frame from the Arduino: command echo, locker index,
response code. -/
structure Frame where
  cmd : Char
  idx : Nat
  resp : Char
deriving Repr, DecidableEq

/-- A 2-byte command frame written to the Arduino by
HardwareManager::sendCommandToArduino. -/
structure CmdFrame where
  cmd : Char
  idx : Nat
deriving Repr, DecidableEq

/-- HardwareManager::processArduinoMessage: updates the first locker whose
`lockerIndex` matches the frame's index; `RESP_LOCKED`/`RESP_UNLOCKED` set
`currentStatus`, `RESP_ACK`/`RESP_ERROR` leave it; `lastStatusUpdate` is
always refreshed for the matched locker. -/
def processArduinoMessage (regs : List LockerConfigR) (f : Frame)
    (now : Nat) : List LockerConfigR :=
  match regs with
  | [] => []
  | l :: rest =>
    if l.lockerIndex = f.idx then
      (if f.resp = RESP_LOCKED then
        { l with currentStatus := "locked", lastStatusUpdate := now }
      else if f.resp = RESP_UNLOCKED then
        { l with currentStatus := "unlocked", lastStatusUpdate := now }
      else
        { l with lastStatusUpdate := now }) :: rest
    else l :: processArduinoMessage rest f now

/-- HardwareManager::waitForArduinoResponse: reads whole 3-byte frames
until one with the expected response code arrives.  `frames` is the
sequence of frames that become available before the `SERIAL_TIMEOUT`
deadline; `none` models the timeout.  The source compares only
`resp == expectedResponse`; the index byte is read but not compared. -/
def waitForArduinoResponse (frames : List Frame) (expectedResponse : Char) :
    Option Frame :=
  match frames with
  | [] => none
  | f :: rest =>
    if f.resp = expectedResponse then some f
    else waitForArduinoResponse rest expectedResponse

/-- Result of a relayed lock/unlock call: the returned Bool, the updated
registry, and the command frames written to the serial link. -/
structure RelayedActResult where
  ok : Bool
  registry : List LockerConfigR
  written : List CmdFrame
deriving Repr, DecidableEq

/-- Helper: replace the element at index `i` (used for the in-place field
assignments `lockers[i].currentStatus = ...` after a successful wait). -/
def listModify {α : Type} (l : List α) (i : Nat) (f : α → α) : List α :=
  match l, i with
  | [], _ => []
  | x :: xs, 0 => f x :: xs
  | x :: xs, n + 1 => x :: listModify xs n f

/-- HardwareManager::unlockLocker (Relayed variant): finds the locker by
id, writes a `CMD_UNLOCK` frame, and blocks on
`waitForArduinoResponse RESP_ACK`.  On acknowledgment the accepted frame
is processed and the commanded locker's status is set to "unlocked"; on
timeout it returns false leaving the registry unchanged. -/
def unlockLockerRelayed (regs : List LockerConfigR) (lockerId : String)
    (frames : List Frame) (now : Nat) : RelayedActResult :=
  match regs.findIdx? (fun l => l.lockerId = lockerId) with
  | none => ⟨false, regs, []⟩
  | some i =>
    match regs[i]? with
    | none => ⟨false, regs, []⟩
    | some lk =>
      let written := [CmdFrame.mk CMD_UNLOCK lk.lockerIndex]
      match waitForArduinoResponse frames RESP_ACK with
      | some f =>
        let regs1 := processArduinoMessage regs f now
        ⟨true,
          listModify regs1 i (fun l =>
            { l with currentStatus := "unlocked", lastStatusUpdate := now }),
          written⟩
      | none => ⟨false, regs, written⟩

/-- HardwareManager::lockLocker (Relayed variant), symmetric to
`unlockLockerRelayed` with `CMD_LOCK` and status "locked". -/
def lockLockerRelayed (regs : List LockerConfigR) (lockerId : String)
    (frames : List Frame) (now : Nat) : RelayedActResult :=
  match regs.findIdx? (fun l => l.lockerId = lockerId) with
  | none => ⟨false, regs, []⟩
  | some i =>
    match regs[i]? with
    | none => ⟨false, regs, []⟩
    | some lk =>
      let written := [CmdFrame.mk CMD_LOCK lk.lockerIndex]
      match waitForArduinoResponse frames RESP_ACK with
      | some f =>
        let regs1 := processArduinoMessage regs f now
        ⟨true,
          listModify regs1 i (fun l =>
            { l with currentStatus := "locked", lastStatusUpdate := now }),
          written⟩
      | none => ⟨false, regs, written⟩

/-- HardwareManager::getLockerStatus: status of the first matching locker,
"unknown" when the id is not in the registry. -/
def getLockerStatus (regs : List LockerConfigR) (lockerId : String) : String :=
  match regs with
  | [] => "unknown"
  | l :: rest =>
    if l.lockerId = lockerId then l.currentStatus
    else getLockerStatus rest lockerId

/-- Result of the relayed command handler: registry, sent envelopes,
serial command frames. -/
structure RelayedCmdResult where
  registry : List LockerConfigR
  sent : List OutMsg
  written : List CmdFrame
deriving Repr, DecidableEq

/-- ServerManager::handleLockUnlockCommand paired with the Relayed
hardware: the Bool returned by lock/unlock is ignored and
`sendStatusUpdate` is called unconditionally with the commanded status. -/
def handleLockUnlockCommandRelayed (isConfigured isConnected : Bool)
    (moduleId : String) (regs : List LockerConfigR)
    (msgType lockerId : String) (frames : List Frame) (now : Nat) :
    RelayedCmdResult :=
  if msgType = "unlock" then
    let r := unlockLockerRelayed regs lockerId frames now
    ⟨r.registry,
      sendStatusUpdate isConfigured isConnected moduleId lockerId "unlocked" now,
      r.written⟩
  else if msgType = "lock" then
    let r := lockLockerRelayed regs lockerId frames now
    ⟨r.registry,
      sendStatusUpdate isConfigured isConnected moduleId lockerId "locked" now,
      r.written⟩
  else ⟨regs, [], []⟩

/-! ## Reconnect logic (ServerManager::reconnect) -/

/-- The two ServerManager fields `reconnect` reads and writes. -/
structure ReconnState where
  isConnected : Bool
  lastReconnectAttempt : Nat
deriving Repr, DecidableEq

/-- Result of one `reconnect()` call: the returned Bool, the updated
state, and whether `webSocket->connect` was invoked. -/
structure ReconnResult where
  ret : Bool
  st : ReconnState
  connectAttempted : Bool
deriving Repr, DecidableEq

/-- ServerManager::reconnect: returns true immediately when connected;
returns false without connecting when fewer than 5000 ms have elapsed
since `lastReconnectAttempt`; otherwise stores the current time into
`lastReconnectAttempt` and only then calls `webSocket->connect`, whose
outcome is the environment input `connectSucceeds`. -/
def reconnect (st : ReconnState) (now : Nat) (connectSucceeds : Bool) :
    ReconnResult :=
  if st.isConnected then ⟨true, st, false⟩
  else if elapsedU32 now st.lastReconnectAttempt < 5000 then ⟨false, st, false⟩
  else
    let st' : ReconnState := ⟨st.isConnected, now⟩
    if connectSucceeds then ⟨true, st', true⟩ else ⟨false, st', true⟩

/-! ## Session loop (raw-WebSocket ServerManager::loop) -/

/-- The ServerManager fields the session loop reads and writes.
`isConfigured` is set by `initialize` from
`HardwareManager::getConfigurationStatus`, which
`loadLockerConfiguration` derives from the persisted module id being
non-empty. -/
structure ServerState where
  isConnected : Bool
  isConfigured : Bool
  moduleId : String
  macAddress : String
  lastPing : Nat
  lastAvailableBroadcast : Nat
  lastReconnectAttempt : Nat
deriving Repr, DecidableEq

/-- ServerManager::sendAvailableModuleBroadcast: guarded on being
unconfigured and connected; sends one `module_available` envelope with
the MAC address, device info, firmware version and locker capability. -/
def sendAvailableModuleBroadcast (st : ServerState) (now : Nat) :
    List OutMsg :=
  if st.isConfigured || !st.isConnected then []
  else
    [OutMsg.moduleAvailable st.macAddress
      (DEVICE_NAME ++ " v" ++ FIRMWARE_VERSION) FIRMWARE_VERSION
      MAX_LOCKERS now]

/-- ServerManager::loop: when disconnected, only `reconnect` runs; when
connected, a ping is sent each `PING_INTERVAL` while configured, and a
`module_available` broadcast each `AVAILABLE_BROADCAST_INTERVAL` while
unconfigured.  Message dispatch via `webSocket->poll()` is modelled
separately by the handler functions. -/
def serverLoop (st : ServerState) (now : Nat) (connectSucceeds : Bool) :
    ServerState × List OutMsg :=
  if !st.isConnected then
    let r := reconnect ⟨st.isConnected, st.lastReconnectAttempt⟩ now
      connectSucceeds
    ({ st with lastReconnectAttempt := r.st.lastReconnectAttempt }, [])
  else
    let pingDue : Bool :=
      st.isConfigured && decide (PING_INTERVAL ≤ elapsedU32 now st.lastPing)
    let st1 := if pingDue then { st with lastPing := now } else st
    let out1 :=
      if pingDue then sendPing st.isConfigured st.isConnected st.moduleId
      else []
    let bcastDue : Bool :=
      !st1.isConfigured &&
        decide (AVAILABLE_BROADCAST_INTERVAL ≤
          elapsedU32 now st1.lastAvailableBroadcast)
    if bcastDue then
      ({ st1 with lastAvailableBroadcast := now },
        out1 ++ sendAvailableModuleBroadcast st1 now)
    else (st1, out1)

/-! ## Configuration persistence and the module_configured handler -/

/-- The Preferences keys the configuration code touches, plus a log of
every key name written (each `putString`/`putInt` call appends), so that
"no preferences key is written" can be stated exactly. -/
structure PrefsState where
  moduleId : String
  numLockers : Nat
  lockerKeys : List (Nat × String)
  writeLog : List String
deriving Repr, DecidableEq

/-- The `putString("lockerN", ...)` loop shared by the
saveLockerConfiguration variants, writing keys locker0..locker(n-1). -/
def writeLockerKeys (p : PrefsState) (ids : List String) (n : Nat) :
    PrefsState :=
  (List.range n).foldl
    (fun q i =>
      { q with
        lockerKeys := q.lockerKeys ++ [(i, ids.getD i "")],
        writeLog := q.writeLog ++ ["locker" ++ toString i] })
    p

/-- HardwareManager::saveLockerConfiguration, legacy variant: writes the
moduleId and numLockers keys unconditionally, then the locker keys for
indices below both `count` and `MAX_LOCKERS`.  No validation, no
in-memory update. -/
def saveLockerConfigurationLegacy (p : PrefsState) (moduleId : String)
    (lockerIds : List String) (count : Nat) : PrefsState :=
  let p1 := { p with moduleId := moduleId, writeLog := p.writeLog ++ ["moduleId"] }
  let p2 := { p1 with numLockers := count, writeLog := p1.writeLog ++ ["numLockers"] }
  writeLockerKeys p2 lockerIds (min count MAX_LOCKERS)

/-- The HardwareManager state touched by the validating (relayed-build)
saveLockerConfiguration: preferences, in-memory module id, configuration
flag and the locker registry (which save never rebuilds; that happens on
the post-restart `loadLockerConfiguration`). -/
structure HWConfigState where
  prefs : PrefsState
  moduleId : String
  isConfigured : Bool
  registry : List LockerConfigR
deriving Repr, DecidableEq

/-- HardwareManager::saveLockerConfiguration, validating (relayed-build)
variant: rejects an empty module id or a count outside 1..MAX_LOCKERS
with only an error print, leaving every field untouched; otherwise writes
the keys and updates the in-memory module id and configured flag. -/
def saveLockerConfiguration (st : HWConfigState) (moduleId : String)
    (lockerIds : List String) (count : Nat) : HWConfigState :=
  if moduleId.length = 0 ∨ count = 0 ∨ count > MAX_LOCKERS then st
  else
    let p1 := { st.prefs with
      moduleId := moduleId, writeLog := st.prefs.writeLog ++ ["moduleId"] }
    let p2 := { p1 with
      numLockers := count, writeLog := p1.writeLog ++ ["numLockers"] }
    let p3 := writeLockerKeys p2 lockerIds count
    { st with prefs := p3, moduleId := moduleId, isConfigured := true }

/-- The fields of an inbound `module_configured` push.  The wire payload
carries a target-identity field addressed to a specific device, but the
handler only ever reads `moduleId` and `lockerIds`. -/
structure ConfigPush where
  targetIdentity : String
  moduleId : String
  lockerIds : List String
deriving Repr, DecidableEq

/-- Result of ServerManager::handleModuleConfiguration: the hardware
state after the save, the envelopes sent back to the server, and whether
the device restarts. -/
structure ConfigHandleResult where
  hw : HWConfigState
  emitted : List OutMsg
  restart : Bool
deriving Repr, DecidableEq

/-- ServerManager::handleModuleConfiguration: extracts `moduleId` and
`lockerIds` from the push, calls `saveLockerConfiguration` with the
list's length as the count, and restarts after an LCD message and delay.
`deviceMac` is the device's own identity (the ServerManager's
`macAddress` field); the source never compares it, or any stored state,
against the push, and sends nothing back on any path. -/
def handleModuleConfiguration (deviceMac : String) (st : HWConfigState)
    (push : ConfigPush) : ConfigHandleResult :=
  ⟨saveLockerConfiguration st push.moduleId push.lockerIds
      push.lockerIds.length,
    [], true⟩

/-! ## Lemmas about the Direct registry operations -/

theorem findLockerD_none_lockLocker (regs : List LockerConfigD)
    (lockerId : String) (h : findLockerD regs lockerId = none) :
    lockLocker regs lockerId = regs := by
  induction regs with
  | nil => rfl
  | cons l rest ih =>
    by_cases hid : l.lockerId = lockerId
    · simp [findLockerD, hid] at h
    · simp only [findLockerD, if_neg hid] at h
      simp only [lockLocker, if_neg hid, ih h]

theorem findLockerD_none_unlockLocker (regs : List LockerConfigD)
    (lockerId : String) (h : findLockerD regs lockerId = none) :
    unlockLocker regs lockerId = regs := by
  induction regs with
  | nil => rfl
  | cons l rest ih =>
    by_cases hid : l.lockerId = lockerId
    · simp [findLockerD, hid] at h
    · simp only [findLockerD, if_neg hid] at h
      simp only [unlockLocker, if_neg hid, ih h]

theorem findLockerD_none_toggleLocker (regs : List LockerConfigD)
    (lockerId : String) (h : findLockerD regs lockerId = none) :
    toggleLocker regs lockerId = regs := by
  induction regs with
  | nil => rfl
  | cons l rest ih =>
    by_cases hid : l.lockerId = lockerId
    · simp [findLockerD, hid] at h
    · simp only [findLockerD, if_neg hid] at h
      simp only [toggleLocker, if_neg hid, ih h]

theorem findLockerD_lockLocker (regs : List LockerConfigD) (lockerId : String)
    (lk : LockerConfigD) (h : findLockerD regs lockerId = some lk) :
    findLockerD (lockLocker regs lockerId) lockerId
      = some { lk with currentPosition := LOCK_POSITION } := by
  induction regs with
  | nil => simp [findLockerD] at h
  | cons l rest ih =>
    by_cases hid : l.lockerId = lockerId
    · simp only [findLockerD, if_pos hid, Option.some.injEq] at h
      subst h
      simp [lockLocker, findLockerD, hid]
    · simp only [findLockerD, if_neg hid] at h
      simp only [lockLocker, if_neg hid, findLockerD]
      exact ih h

theorem findLockerD_unlockLocker (regs : List LockerConfigD) (lockerId : String)
    (lk : LockerConfigD) (h : findLockerD regs lockerId = some lk) :
    findLockerD (unlockLocker regs lockerId) lockerId
      = some { lk with currentPosition := OPEN_POSITION } := by
  induction regs with
  | nil => simp [findLockerD] at h
  | cons l rest ih =>
    by_cases hid : l.lockerId = lockerId
    · simp only [findLockerD, if_pos hid, Option.some.injEq] at h
      subst h
      simp [unlockLocker, findLockerD, hid]
    · simp only [findLockerD, if_neg hid] at h
      simp only [unlockLocker, if_neg hid, findLockerD]
      exact ih h

theorem findLockerD_toggleLocker (regs : List LockerConfigD) (lockerId : String)
    (lk : LockerConfigD) (h : findLockerD regs lockerId = some lk) :
    findLockerD (toggleLocker regs lockerId) lockerId
      = some { lk with currentPosition :=
          if lk.currentPosition = LOCK_POSITION then OPEN_POSITION
          else LOCK_POSITION } := by
  induction regs with
  | nil => simp [findLockerD] at h
  | cons l rest ih =>
    by_cases hid : l.lockerId = lockerId
    · simp only [findLockerD, if_pos hid, Option.some.injEq] at h
      subst h
      by_cases hp : l.currentPosition = LOCK_POSITION
      · simp [toggleLocker, findLockerD, hid, hp]
      · simp [toggleLocker, findLockerD, hid, hp]
    · simp only [findLockerD, if_neg hid] at h
      simp only [toggleLocker, if_neg hid, findLockerD]
      exact ih h

theorem toggleLocker_toggleLocker (regs : List LockerConfigD) (lockerId : String)
    (hpos : ∀ l ∈ regs,
      l.currentPosition = LOCK_POSITION ∨ l.currentPosition = OPEN_POSITION) :
    toggleLocker (toggleLocker regs lockerId) lockerId = regs := by
  induction regs with
  | nil => rfl
  | cons l rest ih =>
    by_cases hid : l.lockerId = lockerId
    · rcases hpos l (by simp) with hp | hp
      · cases l with
        | mk a b c =>
          simp only [LockerConfigD.currentPosition] at hp
          simp only [LockerConfigD.lockerId] at hid
          subst hp
          subst hid
          simp [toggleLocker, LOCK_POSITION, OPEN_POSITION]
      · cases l with
        | mk a b c =>
          simp only [LockerConfigD.currentPosition] at hp
          simp only [LockerConfigD.lockerId] at hid
          subst hp
          subst hid
          simp [toggleLocker, LOCK_POSITION, OPEN_POSITION]
    · simp only [toggleLocker, if_neg hid]
      rw [ih (fun x hx => hpos x (List.mem_cons_of_mem _ hx))]

/-! ## Claim C10: toggle semantics -/

/-- Claim C10: for every lockerId present in the configured registry,
toggleLocker moves that locker's currentPosition to OPEN_POSITION exactly
when it was LOCK_POSITION and to LOCK_POSITION otherwise, so applying
toggleLocker twice to the same configured locker restores its original
currentPosition (the positions of a configured registry are the two servo
positions, as established by initializeServos/loadLockerConfiguration and
preserved by every operation); for a lockerId not in the registry,
toggleLocker changes no locker's position. -/
theorem toggleLocker_flip_involution (regs : List LockerConfigD)
    (lockerId : String)
    (hpos : ∀ l ∈ regs,
      l.currentPosition = LOCK_POSITION ∨ l.currentPosition = OPEN_POSITION) :
    (findLockerD regs lockerId = none → toggleLocker regs lockerId = regs)
    ∧ (∀ lk, findLockerD regs lockerId = some lk →
        findLockerD (toggleLocker regs lockerId) lockerId
          = some { lk with currentPosition :=
              if lk.currentPosition = LOCK_POSITION then OPEN_POSITION
              else LOCK_POSITION })
    ∧ toggleLocker (toggleLocker regs lockerId) lockerId = regs := by
  refine ⟨findLockerD_none_toggleLocker regs lockerId, ?_, ?_⟩
  · intro lk h
    exact findLockerD_toggleLocker regs lockerId lk h
  · exact toggleLocker_toggleLocker regs lockerId hpos

theorem toggleLocker_flip_involution_witness :
    (findLockerD [⟨"L1", 0, 0⟩, ⟨"L2", 90, 0⟩] "L1" = none →
      toggleLocker [⟨"L1", 0, 0⟩, ⟨"L2", 90, 0⟩] "L1"
        = [⟨"L1", 0, 0⟩, ⟨"L2", 90, 0⟩])
    ∧ (∀ lk, findLockerD [⟨"L1", 0, 0⟩, ⟨"L2", 90, 0⟩] "L1" = some lk →
        findLockerD (toggleLocker [⟨"L1", 0, 0⟩, ⟨"L2", 90, 0⟩] "L1") "L1"
          = some { lk with currentPosition :=
              if lk.currentPosition = LOCK_POSITION then OPEN_POSITION
              else LOCK_POSITION })
    ∧ toggleLocker (toggleLocker [⟨"L1", 0, 0⟩, ⟨"L2", 90, 0⟩] "L1") "L1"
        = [⟨"L1", 0, 0⟩, ⟨"L2", 90, 0⟩] :=
  toggleLocker_flip_involution [⟨"L1", 0, 0⟩, ⟨"L2", 90, 0⟩] "L1" (by decide)

/-! ## Claim C7: direct lock command round trip -/

/-- Claim C7: for every lock command received for a locker present in the
configured registry, on the Direct channel (no hardware fault is
representable there), handling the command sets that locker's recorded
state to Locked (`currentPosition = LOCK_POSITION`) and emits exactly one
status_update envelope for that locker in the same control-loop tick, and
symmetrically Unlocked (`OPEN_POSITION`) for an unlock command. -/
theorem direct_lock_roundtrip (isConfigured isConnected : Bool)
    (moduleId : String) (regs : List LockerConfigD) (lockerId : String)
    (now : Nat) (lk : LockerConfigD)
    (hfind : findLockerD regs lockerId = some lk)
    (hc : isConfigured = true) (hn : isConnected = true) :
    findLockerD (handleLockUnlockCommandDirect isConfigured isConnected
        moduleId regs "lock" lockerId now).1 lockerId
      = some { lk with currentPosition := LOCK_POSITION }
    ∧ (handleLockUnlockCommandDirect isConfigured isConnected moduleId regs
        "lock" lockerId now).2
      = [OutMsg.statusUpdate moduleId lockerId "locked" now]
    ∧ (statusUpdatesFor (handleLockUnlockCommandDirect isConfigured
        isConnected moduleId regs "lock" lockerId now).2 lockerId).length = 1
    ∧ findLockerD (handleLockUnlockCommandDirect isConfigured isConnected
        moduleId regs "unlock" lockerId now).1 lockerId
      = some { lk with currentPosition := OPEN_POSITION }
    ∧ (handleLockUnlockCommandDirect isConfigured isConnected moduleId regs
        "unlock" lockerId now).2
      = [OutMsg.statusUpdate moduleId lockerId "unlocked" now] := by
  subst hc
  subst hn
  refine ⟨?_, ?_, ?_, ?_, ?_⟩
  · simp only [handleLockUnlockCommandDirect]
    norm_num
    exact findLockerD_lockLocker regs lockerId lk hfind
  · simp [handleLockUnlockCommandDirect, sendStatusUpdate]
  · simp [handleLockUnlockCommandDirect, sendStatusUpdate, statusUpdatesFor]
  · simp only [handleLockUnlockCommandDirect]
    norm_num
    exact findLockerD_unlockLocker regs lockerId lk hfind
  · simp [handleLockUnlockCommandDirect, sendStatusUpdate]

theorem direct_lock_roundtrip_witness :
    findLockerD (handleLockUnlockCommandDirect true true "M1"
        [⟨"L1", 90, 0⟩] "lock" "L1" 7).1 "L1"
      = some ⟨"L1", LOCK_POSITION, 0⟩
    ∧ (handleLockUnlockCommandDirect true true "M1" [⟨"L1", 90, 0⟩]
        "lock" "L1" 7).2
      = [OutMsg.statusUpdate "M1" "L1" "locked" 7]
    ∧ (statusUpdatesFor (handleLockUnlockCommandDirect true true "M1"
        [⟨"L1", 90, 0⟩] "lock" "L1" 7).2 "L1").length = 1
    ∧ findLockerD (handleLockUnlockCommandDirect true true "M1"
        [⟨"L1", 90, 0⟩] "unlock" "L1" 7).1 "L1"
      = some ⟨"L1", OPEN_POSITION, 0⟩
    ∧ (handleLockUnlockCommandDirect true true "M1" [⟨"L1", 90, 0⟩]
        "unlock" "L1" 7).2
      = [OutMsg.statusUpdate "M1" "L1" "unlocked" 7] :=
  direct_lock_roundtrip true true "M1" [⟨"L1", 90, 0⟩] "L1" 7 ⟨"L1", 90, 0⟩
    (by decide) rfl rfl

/-! ## Claim C8: unknown-locker commands -/

/-- Claim C8 counterexample: a command for a lockerId absent from the
registry changes no locker state, but it is not rejected with an
UnknownLocker error (no such error exists anywhere in the source): the
handler still emits a status_update asserting the commanded status
("unlocked") for the unknown lockerId. -/
theorem unknown_locker_status_emitted_cex :
    (handleLockUnlockCommandDirect true true "M1" [⟨"L1", 0, 0⟩]
        "unlock" "ghost" 7).1 = [⟨"L1", 0, 0⟩]
    ∧ (handleLockUnlockCommandDirect true true "M1" [⟨"L1", 0, 0⟩]
        "unlock" "ghost" 7).2
      = [OutMsg.statusUpdate "M1" "ghost" "unlocked" 7] := by
  decide

/-- Claim C8 amended: for every lock or unlock command whose lockerId is
not in the configured locker registry, no locker's state changes, but the
command is not rejected: there is no UnknownLocker error, and the handler
still emits a status_update with the commanded status for that lockerId
whenever the module is configured and connected. -/
theorem unknown_locker_no_state_change (isConfigured isConnected : Bool)
    (moduleId : String) (regs : List LockerConfigD) (lockerId : String)
    (now : Nat) (habsent : findLockerD regs lockerId = none) :
    (handleLockUnlockCommandDirect isConfigured isConnected moduleId regs
        "lock" lockerId now).1 = regs
    ∧ (handleLockUnlockCommandDirect isConfigured isConnected moduleId regs
        "unlock" lockerId now).1 = regs
    ∧ (handleLockUnlockCommandDirect isConfigured isConnected moduleId regs
        "lock" lockerId now).2
      = sendStatusUpdate isConfigured isConnected moduleId lockerId
          "locked" now
    ∧ (handleLockUnlockCommandDirect isConfigured isConnected moduleId regs
        "unlock" lockerId now).2
      = sendStatusUpdate isConfigured isConnected moduleId lockerId
          "unlocked" now := by
  refine ⟨?_, ?_, ?_, ?_⟩
  · simp only [handleLockUnlockCommandDirect]
    norm_num
    exact findLockerD_none_lockLocker regs lockerId habsent
  · simp only [handleLockUnlockCommandDirect]
    norm_num
    exact findLockerD_none_unlockLocker regs lockerId habsent
  · simp [handleLockUnlockCommandDirect]
  · simp [handleLockUnlockCommandDirect]

theorem unknown_locker_no_state_change_witness :
    (handleLockUnlockCommandDirect true true "M1" [⟨"L1", 0, 0⟩]
        "lock" "ghost" 7).1 = [⟨"L1", 0, 0⟩]
    ∧ (handleLockUnlockCommandDirect true true "M1" [⟨"L1", 0, 0⟩]
        "unlock" "ghost" 7).1 = [⟨"L1", 0, 0⟩]
    ∧ (handleLockUnlockCommandDirect true true "M1" [⟨"L1", 0, 0⟩]
        "lock" "ghost" 7).2
      = sendStatusUpdate true true "M1" "ghost" "locked" 7
    ∧ (handleLockUnlockCommandDirect true true "M1" [⟨"L1", 0, 0⟩]
        "unlock" "ghost" 7).2
      = sendStatusUpdate true true "M1" "ghost" "unlocked" 7 :=
  unknown_locker_no_state_change true true "M1" [⟨"L1", 0, 0⟩] "ghost" 7
    (by decide)

/-! ## Claim C4: reconnect floor -/

theorem reconnect_connectAttempted_iff (st : ReconnState) (now : Nat)
    (b : Bool) :
    (reconnect st now b).connectAttempted = true ↔
      st.isConnected = false ∧
        5000 ≤ elapsedU32 now st.lastReconnectAttempt := by
  unfold reconnect
  by_cases h1 : st.isConnected
  · simp [h1]
  · by_cases h2 : elapsedU32 now st.lastReconnectAttempt < 5000
    · simp [h1, h2]
    · cases b <;> simp [h1, h2] <;> omega

theorem reconnect_attempt_sets_last (st : ReconnState) (now : Nat) (b : Bool)
    (h : (reconnect st now b).connectAttempted = true) :
    (reconnect st now b).st.lastReconnectAttempt = now := by
  unfold reconnect at h ⊢
  by_cases h1 : st.isConnected
  · simp [h1] at h
  · by_cases h2 : elapsedU32 now st.lastReconnectAttempt < 5000
    · simp [h1, h2] at h
    · cases b <;> simp [h1, h2]

/-- Claim C4: two consecutive transport connection attempts made by the
reconnect tick are separated by at least the minimum reconnect interval
(5000 ms).  An attempt at time `t1` stores `t1` into
`lastReconnectAttempt` before calling connect; a later call that actually
attempts a connect from a state still carrying that timestamp must be at
least 5000 ms later (modulo-2^32 elapsed time coinciding with real
elapsed time under the stated monotonicity bounds); and whenever
`reconnect` runs while disconnected with less than 5000 ms elapsed, it
returns false without calling connect and without touching the state. -/
theorem reconnect_floor (st1 : ReconnState) (t1 : Nat) (b1 : Bool)
    (st2 : ReconnState) (t2 : Nat) (b2 : Bool)
    (h1 : (reconnect st1 t1 b1).connectAttempted = true)
    (h2 : st2.lastReconnectAttempt
      = (reconnect st1 t1 b1).st.lastReconnectAttempt)
    (h3 : (reconnect st2 t2 b2).connectAttempted = true)
    (hle : t1 ≤ t2) (hwrap : t2 - t1 < 4294967296) :
    5000 ≤ t2 - t1
    ∧ (reconnect st1 t1 b1).st.lastReconnectAttempt = t1
    ∧ (∀ st now b, st.isConnected = false →
        elapsedU32 now st.lastReconnectAttempt < 5000 →
        reconnect st now b = ⟨false, st, false⟩) := by
  have hset := reconnect_attempt_sets_last st1 t1 b1 h1
  refine ⟨?_, hset, ?_⟩
  · have h3' := (reconnect_connectAttempted_iff st2 t2 b2).mp h3
    have hlast : st2.lastReconnectAttempt = t1 := by rw [h2, hset]
    have he := h3'.2
    rw [hlast, elapsedU32_of_le t1 t2 hle hwrap] at he
    exact he
  · intro st now b hconn hlt
    unfold reconnect
    simp [hconn, hlt]

theorem reconnect_floor_witness :
    5000 ≤ 11000 - 6000
    ∧ (reconnect ⟨false, 0⟩ 6000 true).st.lastReconnectAttempt = 6000
    ∧ (∀ st now b, st.isConnected = false →
        elapsedU32 now st.lastReconnectAttempt < 5000 →
        reconnect st now b = ⟨false, st, false⟩) :=
  reconnect_floor ⟨false, 0⟩ 6000 true ⟨false, 6000⟩ 11000 true
    (by decide) (by decide) (by decide) (by decide) (by decide)

/-! ## Claim C9: module_available broadcast cycle -/

/-- Claim C9: while the device is connected with an empty persisted
configuration (`isConfigured = false`, which `loadLockerConfiguration`
derives exactly from the persisted moduleId being empty), each session
loop pass in which at least `AVAILABLE_BROADCAST_INTERVAL` has elapsed
since the last broadcast emits one `module_available` envelope carrying
the hardware MAC address, device info, firmware version and locker
capabilities, and records the broadcast time; no `module_available`
envelope is ever emitted by a loop pass while configured, and a
disconnected loop pass sends nothing at all. -/
theorem available_broadcast_cycle (st : ServerState) (now : Nat) (b : Bool)
    (hconn : st.isConnected = true) (hcfg : st.isConfigured = false)
    (helapsed : AVAILABLE_BROADCAST_INTERVAL ≤
      elapsedU32 now st.lastAvailableBroadcast) :
    (serverLoop st now b).2
      = [OutMsg.moduleAvailable st.macAddress
          (DEVICE_NAME ++ " v" ++ FIRMWARE_VERSION) FIRMWARE_VERSION
          MAX_LOCKERS now]
    ∧ (serverLoop st now b).1.lastAvailableBroadcast = now
    ∧ (∀ st' now' b', st'.isConfigured = true →
        ((serverLoop st' now' b').2.filter isAvailableMsg) = [])
    ∧ (∀ st' now' b', st'.isConnected = false →
        (serverLoop st' now' b').2 = []) := by
  refine ⟨?_, ?_, ?_, ?_⟩
  · simp [serverLoop, hconn, hcfg, helapsed, sendAvailableModuleBroadcast]
  · simp [serverLoop, hconn, hcfg, helapsed]
  · intro st' now' b' hcfg'
    by_cases hconn' : st'.isConnected
    · simp only [serverLoop, hconn', hcfg']
      by_cases hping : PING_INTERVAL ≤ elapsedU32 now' st'.lastPing
      · simp [hping, sendPing, isAvailableMsg, hconn', hcfg']
      · simp [hping, sendPing, isAvailableMsg, hconn', hcfg']
    · simp only [Bool.not_eq_true] at hconn'
      simp [serverLoop, hconn']
  · intro st' now' b' hconn'
    simp [serverLoop, hconn']

theorem available_broadcast_cycle_witness :
    (serverLoop ⟨true, false, "", "AA:BB:CC", 0, 0, 0⟩ 15000 true).2
      = [OutMsg.moduleAvailable "AA:BB:CC"
          (DEVICE_NAME ++ " v" ++ FIRMWARE_VERSION) FIRMWARE_VERSION
          MAX_LOCKERS 15000]
    ∧ (serverLoop ⟨true, false, "", "AA:BB:CC", 0, 0, 0⟩ 15000
        true).1.lastAvailableBroadcast = 15000
    ∧ (∀ st' now' b', st'.isConfigured = true →
        ((serverLoop st' now' b').2.filter isAvailableMsg) = [])
    ∧ (∀ st' now' b', st'.isConnected = false →
        (serverLoop st' now' b').2 = []) :=
  available_broadcast_cycle ⟨true, false, "", "AA:BB:CC", 0, 0, 0⟩ 15000 true
    rfl rfl (by decide)

/-! ## Claim C5: acknowledgment acceptance condition -/

/-- Claim C5 counterexample: the blocking acknowledgment wait accepts a
frame whose response code matches even though its locker index (2)
differs from the commanded locker's index (1): the wait completes and the
unlock reports success on the foreign-index frame, so the claim that a
frame with a non-matching index does not complete the wait is false. -/
theorem ack_wrong_index_accepted_cex :
    waitForArduinoResponse [⟨CMD_STATUS, 2, RESP_ACK⟩] RESP_ACK
      = some ⟨CMD_STATUS, 2, RESP_ACK⟩
    ∧ (unlockLockerRelayed [⟨"L1", 1, "locked", 0⟩] "L1"
        [⟨CMD_STATUS, 2, RESP_ACK⟩] 5).ok = true := by
  decide

/-- Claim C5 amended: the blocking acknowledgment wait accepts a response
frame exactly when its response code equals the expected acknowledgment
code; the frame's locker index is never compared.  The accepted frame is
the first arriving frame whose response code matches, and every earlier
frame was skipped solely because its response code differed. -/
theorem wait_accepts_first_matching_resp (frames : List Frame)
    (expectedResponse : Char) (f : Frame)
    (h : waitForArduinoResponse frames expectedResponse = some f) :
    f.resp = expectedResponse
    ∧ ∃ pre post, frames = pre ++ f :: post
        ∧ ∀ g ∈ pre, g.resp ≠ expectedResponse := by
  induction frames with
  | nil => simp [waitForArduinoResponse] at h
  | cons x xs ih =>
    by_cases hx : x.resp = expectedResponse
    · simp only [waitForArduinoResponse, if_pos hx, Option.some.injEq] at h
      subst h
      exact ⟨hx, [], xs, rfl, by simp⟩
    · simp only [waitForArduinoResponse, if_neg hx] at h
      obtain ⟨hresp, pre, post, heq, hpre⟩ := ih h
      refine ⟨hresp, x :: pre, post, by simp [heq], ?_⟩
      intro g hg
      rcases List.mem_cons.mp hg with hg | hg
      · rw [hg]; exact hx
      · exact hpre g hg

theorem wait_accepts_first_matching_resp_witness :
    Frame.resp ⟨CMD_STATUS, 2, RESP_ACK⟩ = RESP_ACK
    ∧ ∃ pre post,
        [Frame.mk CMD_STATUS 2 RESP_ACK] = pre ++ ⟨CMD_STATUS, 2, RESP_ACK⟩ :: post
        ∧ ∀ g ∈ pre, g.resp ≠ RESP_ACK :=
  wait_accepts_first_matching_resp [⟨CMD_STATUS, 2, RESP_ACK⟩] RESP_ACK
    ⟨CMD_STATUS, 2, RESP_ACK⟩ (by decide)

/-! ## Claim C6: acknowledgment timeout behaviour -/

/-- Claim C6 counterexample: when no acknowledgment arrives within the
timeout, the relayed unlock returns false but the locker's recorded
status stays "locked" (its previous value, not Unknown), and the upstream
handler still emits a status_update with status "unlocked" rather than
"error". -/
theorem actuation_timeout_keeps_status_cex :
    (unlockLockerRelayed [⟨"L1", 1, "locked", 0⟩] "L1" [] 9).ok = false
    ∧ (unlockLockerRelayed [⟨"L1", 1, "locked", 0⟩] "L1" [] 9).registry
      = [⟨"L1", 1, "locked", 0⟩]
    ∧ getLockerStatus
        (unlockLockerRelayed [⟨"L1", 1, "locked", 0⟩] "L1" [] 9).registry "L1"
      = "locked"
    ∧ (handleLockUnlockCommandRelayed true true "M1" [⟨"L1", 1, "locked", 0⟩]
        "unlock" "L1" [] 9).sent
      = [OutMsg.statusUpdate "M1" "L1" "unlocked" 9] := by
  decide

/-- Claim C6 amended: when the secondary controller does not acknowledge
a lock or unlock command within the bounded timeout, the command returns
false and the locker's recorded status is left at its previous
locked/unlocked value (never set to "unknown"; getLockerStatus answers
"unknown" only for ids absent from the registry), and the upstream
handler ignores the failure: every status_update it emits for the
commanded locker carries the commanded status, never "error". -/
theorem actuation_timeout_unchanged (isConfigured isConnected : Bool)
    (moduleId : String) (regs : List LockerConfigR) (lockerId : String)
    (frames : List Frame) (now : Nat)
    (htimeout : waitForArduinoResponse frames RESP_ACK = none) :
    (unlockLockerRelayed regs lockerId frames now).ok = false
    ∧ (unlockLockerRelayed regs lockerId frames now).registry = regs
    ∧ (lockLockerRelayed regs lockerId frames now).ok = false
    ∧ (lockLockerRelayed regs lockerId frames now).registry = regs
    ∧ (handleLockUnlockCommandRelayed isConfigured isConnected moduleId regs
        "unlock" lockerId frames now).registry = regs
    ∧ (∀ mid lid s ts,
        OutMsg.statusUpdate mid lid s ts ∈
          (handleLockUnlockCommandRelayed isConfigured isConnected moduleId
            regs "unlock" lockerId frames now).sent → s = "unlocked")
    ∧ (∀ mid lid s ts,
        OutMsg.statusUpdate mid lid s ts ∈
          (handleLockUnlockCommandRelayed isConfigured isConnected moduleId
            regs "lock" lockerId frames now).sent → s = "locked") := by
  have hunlock : (unlockLockerRelayed regs lockerId frames now).ok = false
      ∧ (unlockLockerRelayed regs lockerId frames now).registry = regs := by
    unfold unlockLockerRelayed
    cases h1 : regs.findIdx? (fun l => l.lockerId = lockerId) with
    | none => simp
    | some i =>
      cases h2 : regs[i]? with
      | none => simp [h2]
      | some lk => simp [h2, htimeout]
  have hlock : (lockLockerRelayed regs lockerId frames now).ok = false
      ∧ (lockLockerRelayed regs lockerId frames now).registry = regs := by
    unfold lockLockerRelayed
    cases h1 : regs.findIdx? (fun l => l.lockerId = lockerId) with
    | none => simp
    | some i =>
      cases h2 : regs[i]? with
      | none => simp [h2]
      | some lk => simp [h2, htimeout]
  refine ⟨hunlock.1, hunlock.2, hlock.1, hlock.2, ?_, ?_, ?_⟩
  · simp [handleLockUnlockCommandRelayed, hunlock.2]
  · intro mid lid s ts hmem
    simp only [handleLockUnlockCommandRelayed] at hmem
    norm_num at hmem
    simp only [sendStatusUpdate] at hmem
    by_cases hg : !isConfigured || !isConnected
    · simp [hg] at hmem
    · simp [hg] at hmem
      exact hmem.2.2.1
  · intro mid lid s ts hmem
    simp only [handleLockUnlockCommandRelayed] at hmem
    norm_num at hmem
    simp only [sendStatusUpdate] at hmem
    by_cases hg : !isConfigured || !isConnected
    · simp [hg] at hmem
    · simp [hg] at hmem
      exact hmem.2.2.1

theorem actuation_timeout_unchanged_witness :
    (unlockLockerRelayed [⟨"L1", 1, "locked", 0⟩] "L1" [] 9).ok = false
    ∧ (unlockLockerRelayed [⟨"L1", 1, "locked", 0⟩] "L1" [] 9).registry
      = [⟨"L1", 1, "locked", 0⟩]
    ∧ (lockLockerRelayed [⟨"L1", 1, "locked", 0⟩] "L1" [] 9).ok = false
    ∧ (lockLockerRelayed [⟨"L1", 1, "locked", 0⟩] "L1" [] 9).registry
      = [⟨"L1", 1, "locked", 0⟩]
    ∧ (handleLockUnlockCommandRelayed true true "M1" [⟨"L1", 1, "locked", 0⟩]
        "unlock" "L1" [] 9).registry = [⟨"L1", 1, "locked", 0⟩]
    ∧ (∀ mid lid s ts,
        OutMsg.statusUpdate mid lid s ts ∈
          (handleLockUnlockCommandRelayed true true "M1"
            [⟨"L1", 1, "locked", 0⟩] "unlock" "L1" [] 9).sent →
          s = "unlocked")
    ∧ (∀ mid lid s ts,
        OutMsg.statusUpdate mid lid s ts ∈
          (handleLockUnlockCommandRelayed true true "M1"
            [⟨"L1", 1, "locked", 0⟩] "lock" "L1" [] 9).sent →
          s = "locked") :=
  actuation_timeout_unchanged true true "M1" [⟨"L1", 1, "locked", 0⟩] "L1"
    [] 9 rfl

/-! ## Preservation lemmas for the locker-key write loop -/

theorem writeLockerKeys_moduleId (p : PrefsState) (ids : List String)
    (n : Nat) : (writeLockerKeys p ids n).moduleId = p.moduleId := by
  unfold writeLockerKeys
  generalize List.range n = L
  induction L generalizing p with
  | nil => rfl
  | cons x xs ih => rw [List.foldl_cons, ih]

theorem writeLockerKeys_numLockers (p : PrefsState) (ids : List String)
    (n : Nat) : (writeLockerKeys p ids n).numLockers = p.numLockers := by
  unfold writeLockerKeys
  generalize List.range n = L
  induction L generalizing p with
  | nil => rfl
  | cons x xs ih => rw [List.foldl_cons, ih]

/-! ## Claim C1: target-identity validation of module_configured -/

/-- Claim C1 counterexample: a `module_configured` push whose
targetIdentity ("CC:DD") differs from the device's own identity ("AA:BB")
is applied anyway: no `configuration_error` (indeed no envelope at all)
is emitted, the persisted moduleId key is written with the pushed value,
the in-memory configured flag is raised, and the device restarts. -/
theorem identity_mismatch_applied_cex :
    (handleModuleConfiguration "AA:BB" ⟨⟨"", 0, [], []⟩, "", false, []⟩
        ⟨"CC:DD", "M1", ["L1", "L2"]⟩).emitted = []
    ∧ (handleModuleConfiguration "AA:BB" ⟨⟨"", 0, [], []⟩, "", false, []⟩
        ⟨"CC:DD", "M1", ["L1", "L2"]⟩).hw.prefs.moduleId = "M1"
    ∧ (handleModuleConfiguration "AA:BB" ⟨⟨"", 0, [], []⟩, "", false, []⟩
        ⟨"CC:DD", "M1", ["L1", "L2"]⟩).hw.isConfigured = true
    ∧ (handleModuleConfiguration "AA:BB" ⟨⟨"", 0, [], []⟩, "", false, []⟩
        ⟨"CC:DD", "M1", ["L1", "L2"]⟩).hw.prefs.writeLog
      = ["moduleId", "numLockers", "locker0", "locker1"]
    ∧ (handleModuleConfiguration "AA:BB" ⟨⟨"", 0, [], []⟩, "", false, []⟩
        ⟨"CC:DD", "M1", ["L1", "L2"]⟩).restart = true := by
  refine ⟨rfl, rfl, rfl, rfl, rfl⟩

/-- Claim C1 amended: `handleModuleConfiguration` performs no identity
validation at all.  Its result is identical for any device identity and
any targetIdentity value, it never emits any envelope (the protocol has
no `configuration_error` message), and it always restarts; whether the
configuration is applied depends only on `saveLockerConfiguration`'s own
checks on the pushed moduleId and locker count. -/
theorem handleModuleConfiguration_ignores_identity
    (mac mac' tid tid' mid : String) (st : HWConfigState)
    (ids : List String) :
    handleModuleConfiguration mac st ⟨tid, mid, ids⟩
      = handleModuleConfiguration mac' st ⟨tid', mid, ids⟩
    ∧ (handleModuleConfiguration mac st ⟨tid, mid, ids⟩).emitted = []
    ∧ (handleModuleConfiguration mac st ⟨tid, mid, ids⟩).restart = true :=
  ⟨rfl, rfl, rfl⟩

/-! ## Claim C2: single-shot configuration policy -/

/-- Claim C2 counterexample: with the device already configured
(moduleId "M1" persisted and the configured flag set), a further
`module_configured` push is not rejected: it is re-applied, rewriting the
persisted locker key with the new value "L9" and appending fresh writes
to the preferences write log, while no error envelope is emitted. -/
theorem configured_push_reapplied_cex :
    (handleModuleConfiguration "AA:BB"
        ⟨⟨"M1", 1, [(0, "L1")], ["moduleId", "numLockers", "locker0"]⟩,
          "M1", true, [⟨"L1", 1, "locked", 0⟩]⟩
        ⟨"AA:BB", "M1", ["L9"]⟩).emitted = []
    ∧ (handleModuleConfiguration "AA:BB"
        ⟨⟨"M1", 1, [(0, "L1")], ["moduleId", "numLockers", "locker0"]⟩,
          "M1", true, [⟨"L1", 1, "locked", 0⟩]⟩
        ⟨"AA:BB", "M1", ["L9"]⟩).hw.prefs.lockerKeys
      = [(0, "L1"), (0, "L9")]
    ∧ (handleModuleConfiguration "AA:BB"
        ⟨⟨"M1", 1, [(0, "L1")], ["moduleId", "numLockers", "locker0"]⟩,
          "M1", true, [⟨"L1", 1, "locked", 0⟩]⟩
        ⟨"AA:BB", "M1", ["L9"]⟩).hw.prefs.writeLog
      = ["moduleId", "numLockers", "locker0",
          "moduleId", "numLockers", "locker0"]
    ∧ (handleModuleConfiguration "AA:BB"
        ⟨⟨"M1", 1, [(0, "L1")], ["moduleId", "numLockers", "locker0"]⟩,
          "M1", true, [⟨"L1", 1, "locked", 0⟩]⟩
        ⟨"AA:BB", "M1", ["L9"]⟩).restart = true := by
  refine ⟨rfl, rfl, rfl, rfl⟩

/-- Claim C2 amended: a `module_configured` push that arrives after the
device's moduleId is already non-empty is not rejected and is not
surfaced as an error: whenever the push itself passes
`saveLockerConfiguration`'s checks (non-empty moduleId, count within
1..MAX_LOCKERS), the handler re-applies it, rewriting the persisted
moduleId and numLockers keys to the pushed values, emitting nothing, and
restarting the device. -/
theorem configured_push_reapplied (mac : String) (st : HWConfigState)
    (push : ConfigPush) (hconfigured : st.isConfigured = true)
    (hmoduleId : st.moduleId ≠ "")
    (hpm : push.moduleId.length ≠ 0)
    (hn0 : push.lockerIds.length ≠ 0)
    (hnm : push.lockerIds.length ≤ MAX_LOCKERS) :
    (handleModuleConfiguration mac st push).hw.prefs.moduleId
      = push.moduleId
    ∧ (handleModuleConfiguration mac st push).hw.prefs.numLockers
      = push.lockerIds.length
    ∧ (handleModuleConfiguration mac st push).emitted = []
    ∧ (handleModuleConfiguration mac st push).restart = true := by
  have hguard : ¬(push.moduleId.length = 0 ∨ push.lockerIds.length = 0 ∨
      push.lockerIds.length > MAX_LOCKERS) := by
    push_neg
    omega
  refine ⟨?_, ?_, rfl, rfl⟩
  · simp only [handleModuleConfiguration, saveLockerConfiguration,
      if_neg hguard]
    rw [writeLockerKeys_moduleId]
  · simp only [handleModuleConfiguration, saveLockerConfiguration,
      if_neg hguard]
    rw [writeLockerKeys_numLockers]

theorem configured_push_reapplied_witness :
    (handleModuleConfiguration "AA:BB"
        ⟨⟨"M1", 1, [(0, "L1")], ["moduleId", "numLockers", "locker0"]⟩,
          "M1", true, []⟩ ⟨"AA:BB", "M1", ["L9"]⟩).hw.prefs.moduleId = "M1"
    ∧ (handleModuleConfiguration "AA:BB"
        ⟨⟨"M1", 1, [(0, "L1")], ["moduleId", "numLockers", "locker0"]⟩,
          "M1", true, []⟩ ⟨"AA:BB", "M1", ["L9"]⟩).hw.prefs.numLockers = 1
    ∧ (handleModuleConfiguration "AA:BB"
        ⟨⟨"M1", 1, [(0, "L1")], ["moduleId", "numLockers", "locker0"]⟩,
          "M1", true, []⟩ ⟨"AA:BB", "M1", ["L9"]⟩).emitted = []
    ∧ (handleModuleConfiguration "AA:BB"
        ⟨⟨"M1", 1, [(0, "L1")], ["moduleId", "numLockers", "locker0"]⟩,
          "M1", true, []⟩ ⟨"AA:BB", "M1", ["L9"]⟩).restart = true :=
  configured_push_reapplied "AA:BB"
    ⟨⟨"M1", 1, [(0, "L1")], ["moduleId", "numLockers", "locker0"]⟩,
      "M1", true, []⟩ ⟨"AA:BB", "M1", ["L9"]⟩
    rfl (by decide) (by decide) (by decide) (by decide)

/-! ## Claim C3: locker-count validation -/

/-- Claim C3 counterexample: in the legacy `saveLockerConfiguration`
variant, a push with an empty lockerIds list (count 0) still writes the
moduleId and numLockers preference keys before the (empty) locker-key
loop, so "no preferences key is written" fails on that variant. -/
theorem legacy_save_writes_on_empty_cex :
    saveLockerConfigurationLegacy ⟨"", 0, [], []⟩ "M1" [] 0
      = ⟨"M1", 0, [], ["moduleId", "numLockers"]⟩ := by
  rfl

/-- Claim C3 amended: in the validating `saveLockerConfiguration`
variants, an empty lockerIds list or one longer than MAX_LOCKERS is
rejected with only a logged error and no mutation: no preference key is
written and the in-memory moduleId, isConfigured flag and locker registry
are untouched; the `module_configured` handler nonetheless continues and
restarts, emitting no error envelope.  In the legacy variant the moduleId
and numLockers keys are written even for an invalid count. -/
theorem save_rejects_invalid_count (st : HWConfigState) (mid : String)
    (ids : List String) (count : Nat)
    (h : count = 0 ∨ count > MAX_LOCKERS) :
    saveLockerConfiguration st mid ids count = st
    ∧ (∀ mac tid, (handleModuleConfiguration mac st ⟨tid, mid, []⟩).hw = st
        ∧ (handleModuleConfiguration mac st ⟨tid, mid, []⟩).emitted = []
        ∧ (handleModuleConfiguration mac st ⟨tid, mid, []⟩).restart = true) := by
  constructor
  · unfold saveLockerConfiguration
    rw [if_pos (Or.inr h)]
  · intro mac tid
    refine ⟨?_, rfl, rfl⟩
    simp only [handleModuleConfiguration, saveLockerConfiguration,
      List.length_nil]
    simp

theorem save_rejects_invalid_count_witness :
    saveLockerConfiguration ⟨⟨"", 0, [], []⟩, "", false, []⟩ "M1"
        ["a", "b", "c", "d"] 4
      = ⟨⟨"", 0, [], []⟩, "", false, []⟩
    ∧ (∀ mac tid,
        (handleModuleConfiguration mac ⟨⟨"", 0, [], []⟩, "", false, []⟩
          ⟨tid, "M1", []⟩).hw = ⟨⟨"", 0, [], []⟩, "", false, []⟩
        ∧ (handleModuleConfiguration mac ⟨⟨"", 0, [], []⟩, "", false, []⟩
            ⟨tid, "M1", []⟩).emitted = []
        ∧ (handleModuleConfiguration mac ⟨⟨"", 0, [], []⟩, "", false, []⟩
            ⟨tid, "M1", []⟩).restart = true) :=
  save_rejects_invalid_count ⟨⟨"", 0, [], []⟩, "", false, []⟩ "M1"
    ["a", "b", "c", "d"] 4 (by decide)
